import Mathlib

/-!
Verification development for the WT13106Connection device-communication client
(Sync-VDC). The C++ class `WT13106Connection` is shallow-embedded: `std::string`
becomes `List Char`, bytes become `Nat`, member functions that mutate the object
become functions from the record to (result × record), and each OS call a member
function makes (serial open/configure, write, read, USB enumeration) is supplied
as an explicit outcome value, so that every claim can quantify over what the OS
may return.
-/

namespace WT13106

/-- The source's `ConnectionType` enum: Bluetooth-backed serial, or USB. -/
inductive ConnectionType where
  | BLUETOOTH
  | USB
deriving DecidableEq, Repr

/-- C `isspace` characters: `std::stoul` discards leading whitespace. -/
def isSpaceChar (c : Char) : Bool :=
  c = ' ' || c = '\t' || c = '\n' || c = '\x0b' || c = '\x0c' || c = '\r'

/-- Value of one hexadecimal digit, `none` for a non-hex-digit character. -/
def hexDigitVal (c : Char) : Option Nat :=
  if '0' ≤ c ∧ c ≤ '9' then some (c.toNat - '0'.toNat)
  else if 'a' ≤ c ∧ c ≤ 'f' then some (c.toNat - 'a'.toNat + 10)
  else if 'A' ≤ c ∧ c ≤ 'F' then some (c.toNat - 'A'.toNat + 10)
  else none

/-- Whether a character is a hexadecimal digit. -/
def isHexDigitChar (c : Char) : Bool :=
  (hexDigitVal c).isSome

/-- Value of a run of hexadecimal digits, most significant first. -/
def hexValue (cs : List Char) : Nat :=
  cs.foldl (fun a c => a * 16 + (hexDigitVal c).getD 0) 0

/-- `ULONG_MAX` for the 64-bit `unsigned long` that `std::stoul` returns. -/
def ULONG_MAX : Nat := 2 ^ 64 - 1

/-- Model of `std::stoul(str, nullptr, 16)`: discard leading whitespace, then an
optional sign, then an optional `0x`/`0X` prefix (consumed only when a hex digit
follows), then the longest run of hexadecimal digits. `none` models a thrown
exception: `invalid_argument` when no digit was consumed, `out_of_range` when
the value exceeds `ULONG_MAX`. A leading minus negates modulo 2^64, as the
underlying `strtoul` does. Trailing characters after the digit run are ignored. -/
def stoulHex (cs : List Char) : Option Nat :=
  let cs1 := cs.dropWhile isSpaceChar
  let signed : Bool × List Char :=
    match cs1 with
    | '-' :: r => (true, r)
    | '+' :: r => (false, r)
    | _ => (false, cs1)
  let cs2 := signed.2
  let cs3 :=
    match cs2 with
    | '0' :: c :: r =>
      if (c = 'x' || c = 'X') && (match r with | d :: _ => isHexDigitChar d | [] => false)
      then r else cs2
    | _ => cs2
  let digits := cs3.takeWhile isHexDigitChar
  if digits = [] then none
  else
    let v := hexValue digits
    if v > ULONG_MAX then none
    else some (if signed.1 then (2 ^ 64 - v % 2 ^ 64) % 2 ^ 64 else v)

/-- Index of the first `':'` in a character list, as `std::string::find(':')`
(`none` models `npos`). -/
def findColon : List Char → Option Nat
  | [] => none
  | c :: rest => if c = ':' then some 0 else (findColon rest).map (· + 1)

/-- The `WT13106Connection` object's data members. Strings are `List Char`;
the platform serial handle / file descriptor is abstracted to the Boolean
`m_serialOpen` (valid handle held or not). -/
structure WT13106Connection where
  m_connectionString : List Char
  m_connectionType : ConnectionType
  m_isConnected : Bool
  m_lastError : List Char
  m_vid : Nat
  m_pid : Nat
  m_portName : List Char
  m_baudRate : Nat
  m_serialOpen : Bool
deriving DecidableEq, Repr

/-- The constructor `WT13106Connection(connectionString)`: type defaults to
Bluetooth, not connected, empty last error, zero VID/PID, baud rate 9600,
invalid serial handle. `m_portName` defaults to the empty string. -/
def mkConnection (connectionString : List Char) : WT13106Connection :=
  { m_connectionString := connectionString
    m_connectionType := ConnectionType.BLUETOOTH
    m_isConnected := false
    m_lastError := []
    m_vid := 0
    m_pid := 0
    m_portName := []
    m_baudRate := 9600
    m_serialOpen := false }

/-- `WT13106Connection::parseConnectionString()`: returns the C++ `bool` result
together with the mutated object. Branch order follows the source: empty check,
`"BT:"` prefix, `"USB:"` prefix (first colon of the remainder splits VID from
PID, each read by `std::stoul(..., 16)` and cast to `uint16_t`, with `m_vid`
assigned before the PID is parsed, as in the source), then the legacy `COM` /
`/dev/` fallback. -/
def parseConnectionString (s : WT13106Connection) : Bool × WT13106Connection :=
  if s.m_connectionString = [] then
    (false, { s with m_lastError := ("Connection string is empty").data })
  else if s.m_connectionString.take 3 = ("BT:").data then
    let s := { s with m_connectionType := ConnectionType.BLUETOOTH,
                      m_portName := s.m_connectionString.drop 3 }
    if s.m_portName = [] then
      (false, { s with m_lastError :=
        ("Invalid Bluetooth connection string format. Use 'BT:COM5' or 'BT:/dev/ttyUSB0'").data })
    else
      (true, s)
  else if s.m_connectionString.take 4 = ("USB:").data then
    let s := { s with m_connectionType := ConnectionType.USB }
    let usbParams := s.m_connectionString.drop 4
    match findColon usbParams with
    | none =>
      (false, { s with m_lastError :=
        ("Invalid USB connection string format. Use 'USB:VID:PID' (e.g., 'USB:1234:5678')").data })
    | some colonPos =>
      match stoulHex (usbParams.take colonPos) with
      | none =>
        (false, { s with m_lastError :=
          ("Invalid VID/PID format. Use hexadecimal (e.g., 'USB:1234:5678')").data })
      | some v =>
        let s := { s with m_vid := v % 65536 }
        match stoulHex (usbParams.drop (colonPos + 1)) with
        | none =>
          (false, { s with m_lastError :=
            ("Invalid VID/PID format. Use hexadecimal (e.g., 'USB:1234:5678')").data })
        | some p =>
          (true, { s with m_pid := p % 65536 })
  else if ("COM").data.isPrefixOf s.m_connectionString
          || ("/dev/").data.isPrefixOf s.m_connectionString then
    (true, { s with m_connectionType := ConnectionType.BLUETOOTH,
                    m_portName := s.m_connectionString })
  else
    (false, { s with m_lastError :=
      ("Unknown connection string format. Use 'BT:COM5' for Bluetooth or 'USB:1234:5678' for USB").data })

/-- Outcome of the OS calls made by `initializeBluetooth`: whether the port
open succeeds (`CreateFileA` / `open`), whether reading the port attributes
succeeds (`GetCommState` / `tcgetattr`), and whether writing them back succeeds
(`SetCommState` / `tcsetattr`). Both platform branches of the source share this
control flow; the model uses the POSIX branch's message texts. -/
structure BluetoothEnv where
  openOk : Bool
  getAttrOk : Bool
  setAttrOk : Bool
deriving DecidableEq, Repr

/-- Outcome of the OS calls made by `initializeUSB` (Windows branch): whether
`SetupDiGetClassDevs` succeeds, and which (VID, PID) device interfaces the
enumeration loop would yield. `claimable` says whether a matched device's bulk
interface could be claimed; the source never reaches a claim attempt (its
enumeration loop body is empty and never records a match), so `devices` and
`claimable` are never read by the embedded code — they exist so that claims can
speak about the device that is present. -/
structure UsbEnv where
  enumOk : Bool
  devices : List (Nat × Nat)
  claimable : Bool
deriving DecidableEq, Repr

/-- The OS-call outcomes a single `connect()` may consume. -/
structure ConnectEnv where
  bt : BluetoothEnv
  usb : UsbEnv
deriving DecidableEq, Repr

/-- `WT13106Connection::initializeBluetooth()` (POSIX branch; the Windows
branch has the same success/failure structure with different message texts and
an extra timeout call that cannot fail). Opens the port (on success the handle
becomes valid), reads the attributes, writes them back; each failure after the
open closes the handle again. -/
def initializeBluetooth (env : BluetoothEnv) (s : WT13106Connection) :
    Bool × WT13106Connection :=
  if !env.openOk then
    (false, { s with m_lastError := ("Failed to open serial port: ").data ++ s.m_portName })
  else
    let s := { s with m_serialOpen := true }
    if !env.getAttrOk then
      (false, { s with m_serialOpen := false,
                       m_lastError := ("Failed to get serial port attributes").data })
    else if !env.setAttrOk then
      (false, { s with m_serialOpen := false,
                       m_lastError := ("Failed to set serial port attributes").data })
    else
      (true, s)

/-- `WT13106Connection::initializeUSB()` (Windows branch). The enumeration loop
body of the source is empty — `found` is never set — so after a successful
enumeration the function always reports that the device was not found,
whatever `env.devices` holds; and even a found device would only reach the
unconditional "requires full WinUSB or libusb" failure. The POSIX branch of the
source is a single unconditional failure. Either way the function never
succeeds. -/
def initializeUSB (env : UsbEnv) (s : WT13106Connection) :
    Bool × WT13106Connection :=
  if !env.enumOk then
    (false, { s with m_lastError := ("Failed to enumerate USB devices").data })
  else
    let found := false
    if !found then
      (false, { s with m_lastError :=
        ("USB device not found (VID: ").data ++ Nat.toDigits 10 s.m_vid
          ++ (", PID: ").data ++ Nat.toDigits 10 s.m_pid ++ (")").data })
    else
      (false, { s with m_lastError :=
        ("USB connection requires full WinUSB or libusb implementation. For now, use Bluetooth connection (BT:COMx)").data })

/-- `WT13106Connection::cleanupConnection()`: closes the serial handle when it
is valid (Bluetooth branch); the USB branch of the source does nothing. -/
def cleanupConnection (s : WT13106Connection) : WT13106Connection :=
  match s.m_connectionType with
  | ConnectionType.BLUETOOTH =>
    if s.m_serialOpen then { s with m_serialOpen := false } else s
  | ConnectionType.USB => s

/-- `WT13106Connection::connect()`: fails if already connected, else parses the
connection string, else initializes the selected transport; only on transport
success does it set `m_isConnected` and clear the last error. -/
def connect (env : ConnectEnv) (s : WT13106Connection) : Bool × WT13106Connection :=
  if s.m_isConnected then
    (false, { s with m_lastError := ("Already connected").data })
  else
    match parseConnectionString s with
    | (false, s1) => (false, s1)
    | (true, s1) =>
      let r :=
        match s1.m_connectionType with
        | ConnectionType.BLUETOOTH => initializeBluetooth env.bt s1
        | ConnectionType.USB => initializeUSB env.usb s1
      match r with
      | (true, s2) => (true, { s2 with m_isConnected := true, m_lastError := [] })
      | (false, s2) => (false, s2)

/-- `WT13106Connection::disconnect()`. -/
def disconnect (s : WT13106Connection) : Bool × WT13106Connection :=
  if !s.m_isConnected then
    (false, { s with m_lastError := ("Not connected").data })
  else
    (true, { cleanupConnection s with m_isConnected := false, m_lastError := [] })

/-- `WT13106Connection::isConnected()`. -/
def isConnected (s : WT13106Connection) : Bool :=
  s.m_isConnected

/-- `WT13106Connection::getLastError()`. -/
def getLastError (s : WT13106Connection) : List Char :=
  s.m_lastError

/-- Outcome of the one OS write a `sendCommand` may perform: the call fails
outright (`WriteFile` returning false / `write` returning a negative count), or
it reports `n` bytes written. -/
inductive WriteOutcome where
  | fail
  | wrote (n : Nat)
deriving DecidableEq, Repr

/-- Outcome of the one OS read a `receiveResponse` may perform: `ok data` is a
successful read of `data` (possibly empty, as on a timeout with no bytes);
`pending` is the Windows `ReadFile` failure with `ERROR_IO_PENDING`, which the
source ignores (no data, no error recorded); `ioError` is any other read
failure. -/
inductive ReadOutcome where
  | ok (data : List Nat)
  | pending
  | ioError
deriving DecidableEq, Repr

/-- `WT13106Connection::sendCommand(command)`: fails when not connected, fails
on an empty command, writes over the serial port on the Bluetooth path (failed
or partial writes are errors), and always fails on the unimplemented USB path;
only the successful fall-through clears the last error. Bytes are modelled as
`Nat`. -/
def sendCommand (command : List Nat) (w : WriteOutcome) (s : WT13106Connection) :
    Bool × WT13106Connection :=
  if !s.m_isConnected then
    (false, { s with m_lastError := ("Not connected to device").data })
  else if command = [] then
    (false, { s with m_lastError := ("Command is empty").data })
  else
    match s.m_connectionType with
    | ConnectionType.BLUETOOTH =>
      match w with
      | WriteOutcome.fail =>
        (false, { s with m_lastError := ("Failed to write to serial port").data })
      | WriteOutcome.wrote n =>
        if n ≠ command.length then
          (false, { s with m_lastError := ("Partial write to serial port").data })
        else
          (true, { s with m_lastError := [] })
    | ConnectionType.USB =>
      (false, { s with m_lastError := ("USB send not fully implemented").data })

/-- `WT13106Connection::receiveResponse(timeoutMs)`: returns the response bytes
together with the mutated object. When not connected it records the error and
returns the empty vector; on the Bluetooth path a successful read returns the
data read (possibly none), the Windows `ERROR_IO_PENDING` case returns empty
with no error recorded, and any other read failure records an error and returns
empty; the unimplemented USB path records an error and returns empty. No branch
clears the last error. -/
def receiveResponse (timeoutMs : Nat) (r : ReadOutcome) (s : WT13106Connection) :
    List Nat × WT13106Connection :=
  let _ := timeoutMs
  if !s.m_isConnected then
    ([], { s with m_lastError := ("Not connected to device").data })
  else
    match s.m_connectionType with
    | ConnectionType.BLUETOOTH =>
      match r with
      | ReadOutcome.ok data => (data, s)
      | ReadOutcome.pending => ([], s)
      | ReadOutcome.ioError =>
        ([], { s with m_lastError := ("Failed to read from serial port").data })
    | ConnectionType.USB =>
      ([], { s with m_lastError := ("USB receive not fully implemented").data })

/-- `WT13106Connection::sendCommandAndReceive(command, timeoutMs)`: sends, and
on send failure returns the empty vector without attempting a receive;
otherwise returns the receive's result. -/
def sendCommandAndReceive (command : List Nat) (timeoutMs : Nat)
    (w : WriteOutcome) (r : ReadOutcome) (s : WT13106Connection) :
    List Nat × WT13106Connection :=
  match sendCommand command w s with
  | (false, s1) => ([], s1)
  | (true, s1) => receiveResponse timeoutMs r s1

/-- One public operation on a `WT13106Connection`, bundled with the outcomes of
the OS calls it makes, so that a list of operations describes an arbitrary
client session. -/
inductive Op where
  | connectOp (env : ConnectEnv)
  | disconnectOp
  | sendOp (command : List Nat) (w : WriteOutcome)
  | receiveOp (timeoutMs : Nat) (r : ReadOutcome)
  | sendAndReceiveOp (command : List Nat) (timeoutMs : Nat) (w : WriteOutcome) (r : ReadOutcome)

/-- The state after one operation. -/
def stepOp (s : WT13106Connection) : Op → WT13106Connection
  | Op.connectOp env => (connect env s).2
  | Op.disconnectOp => (disconnect s).2
  | Op.sendOp c w => (sendCommand c w s).2
  | Op.receiveOp t r => (receiveResponse t r s).2
  | Op.sendAndReceiveOp c t w r => (sendCommandAndReceive c t w r s).2

/-- The state after a sequence of operations. -/
def runOps (s : WT13106Connection) : List Op → WT13106Connection
  | [] => s
  | op :: rest => runOps (stepOp s op) rest

/-- Rendering of the claim's words "the most recent connect() succeeded and no
disconnect() has occurred since": some `connect` in the session succeeded (in
the state it actually ran in) and no later operation is a `disconnect`. -/
def specConnected (s0 : WT13106Connection) (ops : List Op) : Prop :=
  ∃ i env, ops.get? i = some (Op.connectOp env)
    ∧ (connect env (runOps s0 (ops.take i))).1 = true
    ∧ ∀ j, i < j → ops.get? j ≠ some Op.disconnectOp

/-- No operation of the session is a `disconnect`. -/
def NoDisconnect (ops : List Op) : Prop :=
  ∀ j, ops.get? j ≠ some Op.disconnectOp

/-- Classification of a `parseConnectionString` run from a fresh object, in the
spec's vocabulary: the Serial (Bluetooth) variant with its port name, the Usb
variant with its identifiers, the `EmptyDescriptor` failure (the source's
"Connection string is empty" error), or any other failure (`InvalidFormat`). -/
inductive ParseOutcome where
  | serial (portName : List Char)
  | usb (vendorId productId : Nat)
  | emptyDescriptor
  | invalidFormat
deriving DecidableEq, Repr

/-- Parse a connection string through a freshly constructed object and classify
the result. -/
def parseOutcome (cs : List Char) : ParseOutcome :=
  match parseConnectionString (mkConnection cs) with
  | (true, s) =>
    match s.m_connectionType with
    | ConnectionType.BLUETOOTH => ParseOutcome.serial s.m_portName
    | ConnectionType.USB => ParseOutcome.usb s.m_vid s.m_pid
  | (false, s) =>
    if s.m_lastError = ("Connection string is empty").data then ParseOutcome.emptyDescriptor
    else ParseOutcome.invalidFormat

/-- Modelled from the spec: a "16-bit hexadecimal integer" (the spec's `hex16`)
is a nonempty string of hexadecimal digits whose value fits in 16 bits. -/
def isHex16 (cs : List Char) : Bool :=
  !cs.isEmpty && cs.all isHexDigitChar && hexValue cs < 65536

/-- A Bluetooth environment in which every OS call succeeds. -/
def btEnvOK : BluetoothEnv :=
  { openOk := true, getAttrOk := true, setAttrOk := true }

/-- A USB environment in which enumeration succeeds and the device
(VID 0x1234, PID 0x5678) is present and claimable. -/
def usbEnvPresent : UsbEnv :=
  { enumOk := true, devices := [(0x1234, 0x5678)], claimable := true }

/-- A connect environment in which every OS call succeeds and the USB device
is present. -/
def envOK : ConnectEnv :=
  { bt := btEnvOK, usb := usbEnvPresent }

/-- A connection to `BT:COM5` after a successful `connect()`. -/
def sConnected : WT13106Connection :=
  (connect envOK (mkConnection ("BT:COM5").data)).2

theorem parse_isConnected (s : WT13106Connection) :
    ((parseConnectionString s).2).m_isConnected = s.m_isConnected := by
  unfold parseConnectionString
  dsimp only
  repeat' split
  all_goals rfl

theorem initializeBluetooth_isConnected (env : BluetoothEnv) (s : WT13106Connection) :
    ((initializeBluetooth env s).2).m_isConnected = s.m_isConnected := by
  unfold initializeBluetooth
  dsimp only
  repeat' split
  all_goals rfl

theorem initializeUSB_isConnected (env : UsbEnv) (s : WT13106Connection) :
    ((initializeUSB env s).2).m_isConnected = s.m_isConnected := by
  unfold initializeUSB
  dsimp only
  repeat' split
  all_goals rfl

theorem initializeUSB_fst (env : UsbEnv) (s : WT13106Connection) :
    (initializeUSB env s).1 = false := by
  unfold initializeUSB
  dsimp only
  repeat' split
  all_goals rfl

theorem connect_isConnected (env : ConnectEnv) (s : WT13106Connection) :
    ((connect env s).2).m_isConnected = ((connect env s).1 || s.m_isConnected) := by
  unfold connect
  by_cases h : s.m_isConnected
  · simp [h]
  · simp only [h, if_false, Bool.false_eq_true]
    rcases hp : parseConnectionString s with ⟨b, s1⟩
    have hs1 : s1.m_isConnected = s.m_isConnected := by
      have := parse_isConnected s
      rw [hp] at this
      exact this
    cases b
    · simp [hs1, h]
    · rcases ht : s1.m_connectionType with _ | _
      · rcases hb : initializeBluetooth env.bt s1 with ⟨b2, s2⟩
        have hs2 : s2.m_isConnected = s1.m_isConnected := by
          have := initializeBluetooth_isConnected env.bt s1
          rw [hb] at this
          exact this
        cases b2 <;> simp [ht, hb, hs2, hs1, h]
      · rcases hb : initializeUSB env.usb s1 with ⟨b2, s2⟩
        have hs2 : s2.m_isConnected = s1.m_isConnected := by
          have := initializeUSB_isConnected env.usb s1
          rw [hb] at this
          exact this
        cases b2 <;> simp [ht, hb, hs2, hs1, h]

theorem disconnect_isConnected (s : WT13106Connection) :
    ((disconnect s).2).m_isConnected = false := by
  unfold disconnect
  by_cases h : s.m_isConnected <;> simp [h]

theorem sendCommand_isConnected (c : List Nat) (w : WriteOutcome) (s : WT13106Connection) :
    ((sendCommand c w s).2).m_isConnected = s.m_isConnected := by
  unfold sendCommand
  repeat' split
  all_goals rfl

theorem receiveResponse_isConnected (t : Nat) (r : ReadOutcome) (s : WT13106Connection) :
    ((receiveResponse t r s).2).m_isConnected = s.m_isConnected := by
  unfold receiveResponse
  repeat' split
  all_goals rfl

theorem sendCommandAndReceive_isConnected (c : List Nat) (t : Nat) (w : WriteOutcome)
    (r : ReadOutcome) (s : WT13106Connection) :
    ((sendCommandAndReceive c t w r s).2).m_isConnected = s.m_isConnected := by
  unfold sendCommandAndReceive
  rcases hs : sendCommand c w s with ⟨b, s1⟩
  have hs1 : s1.m_isConnected = s.m_isConnected := by
    have := sendCommand_isConnected c w s
    rw [hs] at this
    exact this
  cases b
  · simp [hs1]
  · simp only []
    rw [receiveResponse_isConnected, hs1]

theorem noDisconnect_cons (op : Op) (rest : List Op) :
    NoDisconnect (op :: rest) ↔ op ≠ Op.disconnectOp ∧ NoDisconnect rest := by
  constructor
  · intro h
    refine ⟨fun he => h 0 (by simp [he]), fun j => ?_⟩
    have := h (j + 1)
    simpa using this
  · rintro ⟨h0, h⟩ j
    cases j with
    | zero => simpa using h0
    | succ j => simpa using h j

theorem specConnected_cons (s0 : WT13106Connection) (op : Op) (rest : List Op) :
    specConnected s0 (op :: rest) ↔
      specConnected (stepOp s0 op) rest ∨
        (∃ env, op = Op.connectOp env ∧ (connect env s0).1 = true ∧ NoDisconnect rest) := by
  have hrun : ∀ i, runOps s0 ((op :: rest).take (i + 1)) = runOps (stepOp s0 op) (rest.take i) := by
    intro i
    simp [List.take_succ_cons, runOps]
  constructor
  · rintro ⟨i, env, hget, hconn, hnd⟩
    cases i with
    | zero =>
      right
      refine ⟨env, by simpa using hget, by simpa using hconn, fun j => ?_⟩
      have := hnd (j + 1) (Nat.succ_pos j)
      simpa using this
    | succ i =>
      left
      refine ⟨i, env, by simpa using hget, ?_, fun j hj => ?_⟩
      · rw [hrun i] at hconn
        exact hconn
      · have := hnd (j + 1) (by omega)
        simpa using this
  · rintro (⟨i, env, hget, hconn, hnd⟩ | ⟨env, hop, hconn, hnd⟩)
    · refine ⟨i + 1, env, by simpa using hget, ?_, fun j hj => ?_⟩
      · rw [hrun i]
        exact hconn
      · cases j with
        | zero => omega
        | succ j =>
          have := hnd j (by omega)
          simpa using this
    · subst hop
      refine ⟨0, env, by simp, by simpa using hconn, fun j hj => ?_⟩
      cases j with
      | zero => omega
      | succ j => simpa using hnd j

theorem runOps_isConnected (s0 : WT13106Connection) (ops : List Op) :
    (runOps s0 ops).m_isConnected = true ↔
      specConnected s0 ops ∨ (s0.m_isConnected = true ∧ NoDisconnect ops) := by
  induction ops generalizing s0 with
  | nil =>
    simp [runOps, specConnected, NoDisconnect]
  | cons op rest ih =>
    have hstep : runOps s0 (op :: rest) = runOps (stepOp s0 op) rest := rfl
    rw [hstep, ih, specConnected_cons, noDisconnect_cons]
    cases op with
    | connectOp env =>
      simp only [stepOp, connect_isConnected, Bool.or_eq_true, Op.connectOp.injEq]
      constructor
      · rintro (h | ⟨(hc | hf), hnd⟩)
        · exact Or.inl (Or.inl h)
        · exact Or.inl (Or.inr ⟨env, rfl, hc, hnd⟩)
        · exact Or.inr ⟨hf, by simp, hnd⟩
      · rintro ((h | ⟨env', he, hc, hnd⟩) | ⟨hf, _, hnd⟩)
        · exact Or.inl h
        · cases he
          exact Or.inr ⟨Or.inl hc, hnd⟩
        · exact Or.inr ⟨Or.inr hf, hnd⟩
    | disconnectOp =>
      simp [stepOp, disconnect_isConnected]
    | sendOp c w =>
      simp only [stepOp, sendCommand_isConnected]
      constructor
      · rintro (h | ⟨hf, hnd⟩)
        · exact Or.inl (Or.inl h)
        · exact Or.inr ⟨hf, by simp, hnd⟩
      · rintro ((h | ⟨env', he, hc, hnd⟩) | ⟨hf, _, hnd⟩)
        · exact Or.inl h
        · cases he
        · exact Or.inr ⟨hf, hnd⟩
    | receiveOp t r =>
      simp only [stepOp, receiveResponse_isConnected]
      constructor
      · rintro (h | ⟨hf, hnd⟩)
        · exact Or.inl (Or.inl h)
        · exact Or.inr ⟨hf, by simp, hnd⟩
      · rintro ((h | ⟨env', he, hc, hnd⟩) | ⟨hf, _, hnd⟩)
        · exact Or.inl h
        · cases he
        · exact Or.inr ⟨hf, hnd⟩
    | sendAndReceiveOp c t w r =>
      simp only [stepOp, sendCommandAndReceive_isConnected]
      constructor
      · rintro (h | ⟨hf, hnd⟩)
        · exact Or.inl (Or.inl h)
        · exact Or.inr ⟨hf, by simp, hnd⟩
      · rintro ((h | ⟨env', he, hc, hnd⟩) | ⟨hf, _, hnd⟩)
        · exact Or.inl h
        · cases he
        · exact Or.inr ⟨hf, hnd⟩

theorem parse_usb_eq (rest : List Char) :
    parseConnectionString (mkConnection ('U' :: 'S' :: 'B' :: ':' :: rest)) =
      (let s1 : WT13106Connection :=
        { mkConnection ('U' :: 'S' :: 'B' :: ':' :: rest) with m_connectionType := ConnectionType.USB }
       match findColon rest with
       | none => (false, { s1 with m_lastError :=
           ("Invalid USB connection string format. Use 'USB:VID:PID' (e.g., 'USB:1234:5678')").data })
       | some colonPos =>
         match stoulHex (rest.take colonPos) with
         | none => (false, { s1 with m_lastError :=
             ("Invalid VID/PID format. Use hexadecimal (e.g., 'USB:1234:5678')").data })
         | some v =>
           match stoulHex (rest.drop (colonPos + 1)) with
           | none => (false, { s1 with m_vid := v % 65536, m_lastError :=
               ("Invalid VID/PID format. Use hexadecimal (e.g., 'USB:1234:5678')").data })
           | some p => (true, { s1 with m_vid := v % 65536, m_pid := p % 65536 })) := by
  have h2 : List.take 3 ('U' :: 'S' :: 'B' :: ':' :: rest) = (['U', 'S', 'B'] : List Char) := rfl
  have h3 : List.take 4 ('U' :: 'S' :: 'B' :: ':' :: rest) = (['U', 'S', 'B', ':'] : List Char) := rfl
  unfold parseConnectionString mkConnection
  dsimp only
  rw [if_neg (by simp), if_neg (by rw [h2]; decide), if_pos (by rw [h3])]
  rfl

/-- C1: the connection-string parser maps the spec's test vectors exactly:
`parse("BT:COM5")` is the Serial variant with port name `"COM5"`;
`parse("USB:1234:5678")` is the Usb variant with vendor id 0x1234 and product
id 0x5678; `parse("COM3")` is the Serial variant with port name `"COM3"` via
the legacy fallback; `parse("USB:ZZZZ:0001")` fails with `InvalidFormat`; and
the empty string fails with `EmptyDescriptor`. -/
theorem C1_parse_vectors :
    parseOutcome ("BT:COM5").data = ParseOutcome.serial (("COM5").data)
    ∧ parseOutcome ("USB:1234:5678").data = ParseOutcome.usb 0x1234 0x5678
    ∧ parseOutcome ("COM3").data = ParseOutcome.serial (("COM3").data)
    ∧ parseOutcome ("USB:ZZZZ:0001").data = ParseOutcome.invalidFormat
    ∧ parseOutcome [] = ParseOutcome.emptyDescriptor := by
  decide

/-- C9: each hex half of a USB connection string is read with `std::stoul`
prefix semantics — `"USB:12G4:5678"` parses successfully using only the
leading hex digits of `"12G4"` (vendor id 0x12), and the overlong half in
`"USB:12345:5678"` is accepted and truncated modulo 2^16 by the `uint16_t`
cast (vendor id 0x2345) — even though neither half is a valid 16-bit
hexadecimal integer. -/
theorem C9_stoul_prefix_truncation :
    parseOutcome ("USB:12G4:5678").data = ParseOutcome.usb 0x12 0x5678
    ∧ parseOutcome ("USB:12345:5678").data = ParseOutcome.usb 0x2345 0x5678
    ∧ isHex16 ("12G4").data = false
    ∧ isHex16 ("12345").data = false := by
  decide

/-- C3 counterexample: on `"USB:" ++ "12345" ++ ":" ++ "5678"` the separator is
present and the half `"12345"` is not a valid 16-bit hexadecimal integer, so
the claim requires the parse to fail with `InvalidFormat`; the code instead
accepts it, truncating to the Usb variant (0x2345, 0x5678). -/
theorem C3_counterexample :
    parseOutcome ('U' :: 'S' :: 'B' :: ':' :: ("12345:5678").data) = ParseOutcome.usb 0x2345 0x5678
    ∧ parseOutcome ('U' :: 'S' :: 'B' :: ':' :: ("12345:5678").data) ≠ ParseOutcome.invalidFormat
    ∧ (findColon ("12345:5678").data).isSome = true
    ∧ isHex16 (("12345:5678").data.take 5) = false := by
  decide

/-- C3 (amended): for every input of the form `"USB:" ++ rest`, parsing fails
with `InvalidFormat` iff the remainder has no `':'` separator, or
`std::stoul(..., 16)` fails on one of the two halves split at the FIRST colon
(no leading hex digits, or overflow of `unsigned long`); otherwise each half's
`stoul` value is truncated modulo 2^16 into the Usb variant. -/
theorem C3_usb_parse_characterization (rest : List Char) :
    (parseOutcome ('U' :: 'S' :: 'B' :: ':' :: rest) = ParseOutcome.invalidFormat ↔
      findColon rest = none
        ∨ (∃ i, findColon rest = some i
            ∧ (stoulHex (rest.take i) = none ∨ stoulHex (rest.drop (i + 1)) = none)))
    ∧ (∀ i v p, findColon rest = some i → stoulHex (rest.take i) = some v →
        stoulHex (rest.drop (i + 1)) = some p →
        parseOutcome ('U' :: 'S' :: 'B' :: ':' :: rest) = ParseOutcome.usb (v % 65536) (p % 65536)) := by
  have hp := parse_usb_eq rest
  constructor
  · rw [parseOutcome, hp]
    dsimp only
    rcases hc : findColon rest with _ | i
    · simp only [hc]
      rw [if_neg (by decide)]
      exact ⟨fun _ => Or.inl trivial, fun _ => rfl⟩
    · rcases hv : stoulHex (rest.take i) with _ | v
      · simp only [hc, hv]
        rw [if_neg (by decide)]
        exact ⟨fun _ => Or.inr ⟨i, rfl, Or.inl hv⟩, fun _ => rfl⟩
      · rcases hw : stoulHex (rest.drop (i + 1)) with _ | p
        · simp only [hc, hv, hw]
          rw [if_neg (by decide)]
          exact ⟨fun _ => Or.inr ⟨i, rfl, Or.inr hw⟩, fun _ => rfl⟩
        · simp only [hc, hv, hw]
          constructor
          · intro h
            exact absurd h (by simp)
          · rintro (h | ⟨i', hi', h1 | h2⟩)
            · exact absurd h (by simp)
            · rw [show i' = i from by injection hi' with h; exact h.symm] at h1
              rw [hv] at h1
              exact absurd h1 (by simp)
            · rw [show i' = i from by injection hi' with h; exact h.symm] at h2
              rw [hw] at h2
              exact absurd h2 (by simp)
  · intro i v p h1 h2 h3
    rw [parseOutcome, hp]
    simp only [h1, h2, h3]

theorem parse_fail_lastError (s : WT13106Connection) :
    (parseConnectionString s).1 = false → (parseConnectionString s).2.m_lastError ≠ [] := by
  unfold parseConnectionString
  dsimp only
  repeat' split
  all_goals intro h
  all_goals first
    | exact Bool.noConfusion h
    | exact List.cons_ne_nil _ _

theorem initializeBluetooth_fail_lastError (env : BluetoothEnv) (s : WT13106Connection) :
    (initializeBluetooth env s).1 = false → (initializeBluetooth env s).2.m_lastError ≠ [] := by
  unfold initializeBluetooth
  dsimp only
  repeat' split
  all_goals intro h
  all_goals first
    | exact Bool.noConfusion h
    | exact List.cons_ne_nil _ _

theorem initializeUSB_lastError (env : UsbEnv) (s : WT13106Connection) :
    (initializeUSB env s).2.m_lastError ≠ [] := by
  unfold initializeUSB
  dsimp only
  repeat' split
  all_goals exact List.cons_ne_nil _ _

theorem sendCommand_fail_lastError (cmd : List Nat) (w : WriteOutcome) (s : WT13106Connection) :
    (sendCommand cmd w s).1 = false → (sendCommand cmd w s).2.m_lastError ≠ [] := by
  unfold sendCommand
  dsimp only
  repeat' split
  all_goals intro h
  all_goals first
    | exact Bool.noConfusion h
    | exact List.cons_ne_nil _ _

theorem sendCommand_success_lastError (cmd : List Nat) (w : WriteOutcome) (s : WT13106Connection) :
    (sendCommand cmd w s).1 = true → (sendCommand cmd w s).2.m_lastError = [] := by
  unfold sendCommand
  dsimp only
  repeat' split
  all_goals intro h
  all_goals first
    | exact Bool.noConfusion h
    | rfl

theorem connect_fail_lastError (env : ConnectEnv) (s : WT13106Connection) :
    (connect env s).1 = false → (connect env s).2.m_lastError ≠ [] := by
  unfold connect
  by_cases hc : s.m_isConnected
  · rw [if_pos hc]
    intro _
    exact List.cons_ne_nil _ _
  · rw [if_neg hc]
    rcases hp : parseConnectionString s with ⟨b, s1⟩
    cases b
    · intro _
      have h1 : (parseConnectionString s).1 = false := by rw [hp]
      have h2 := parse_fail_lastError s h1
      rw [hp] at h2
      exact h2
    · dsimp only
      rcases ht : s1.m_connectionType with _ | _
      · simp only [ht]
        rcases hb : initializeBluetooth env.bt s1 with ⟨b2, s2⟩
        cases b2
        · intro _
          have h1 : (initializeBluetooth env.bt s1).1 = false := by rw [hb]
          have h2 := initializeBluetooth_fail_lastError env.bt s1 h1
          rw [hb] at h2
          exact h2
        · intro h
          exact Bool.noConfusion h
      · simp only [ht]
        rcases hb : initializeUSB env.usb s1 with ⟨b2, s2⟩
        cases b2
        · intro _
          have h2 := initializeUSB_lastError env.usb s1
          rw [hb] at h2
          exact h2
        · intro h
          exact Bool.noConfusion h

theorem connect_success_lastError (env : ConnectEnv) (s : WT13106Connection) :
    (connect env s).1 = true → (connect env s).2.m_lastError = [] := by
  unfold connect
  by_cases hc : s.m_isConnected
  · rw [if_pos hc]
    intro h
    exact Bool.noConfusion h
  · rw [if_neg hc]
    rcases hp : parseConnectionString s with ⟨b, s1⟩
    cases b
    · intro h
      exact Bool.noConfusion h
    · dsimp only
      rcases ht : s1.m_connectionType with _ | _
      · simp only [ht]
        rcases hb : initializeBluetooth env.bt s1 with ⟨b2, s2⟩
        cases b2
        · intro h
          exact Bool.noConfusion h
        · intro _
          rfl
      · simp only [ht]
        rcases hb : initializeUSB env.usb s1 with ⟨b2, s2⟩
        cases b2
        · intro h
          exact Bool.noConfusion h
        · intro _
          rfl

theorem disconnect_fail_state (s : WT13106Connection) :
    (disconnect s).1 = false →
      (disconnect s).2.m_isConnected = s.m_isConnected ∧ (disconnect s).2.m_lastError ≠ [] := by
  unfold disconnect
  by_cases h : s.m_isConnected
  · rw [h]
    dsimp only
    intro hf
    exact Bool.noConfusion hf
  · have h' : s.m_isConnected = false := by simpa using h
    rw [h']
    dsimp only
    intro _
    exact ⟨rfl, List.cons_ne_nil _ _⟩

theorem disconnect_success_lastError (s : WT13106Connection) :
    (disconnect s).1 = true → (disconnect s).2.m_lastError = [] := by
  unfold disconnect
  by_cases h : s.m_isConnected
  · rw [h]
    dsimp only
    intro _
    rfl
  · have h' : s.m_isConnected = false := by simpa using h
    rw [h']
    dsimp only
    intro hf
    exact Bool.noConfusion hf

theorem receiveResponse_data_state (t : Nat) (r : ReadOutcome) (s : WT13106Connection) :
    (receiveResponse t r s).1 ≠ [] → (receiveResponse t r s).2 = s := by
  unfold receiveResponse
  dsimp only
  repeat' split
  all_goals intro h
  all_goals first
    | rfl
    | exact absurd rfl h

theorem receiveResponse_lastError_cases (t : Nat) (r : ReadOutcome) (s : WT13106Connection) :
    (receiveResponse t r s).2.m_lastError = s.m_lastError
      ∨ ((receiveResponse t r s).2.m_lastError ≠ [] ∧ (receiveResponse t r s).1 = []) := by
  unfold receiveResponse
  dsimp only
  repeat' split
  all_goals first
    | exact Or.inl rfl
    | exact Or.inr ⟨List.cons_ne_nil _ _, rfl⟩

theorem receiveResponse_never_clears (t : Nat) (r : ReadOutcome) (s : WT13106Connection)
    (h : s.m_lastError ≠ []) : (receiveResponse t r s).2.m_lastError ≠ [] := by
  rcases receiveResponse_lastError_cases t r s with hcase | hcase
  · rw [hcase]
    exact h
  · exact hcase.1

/-- The connected state reached after a failed empty-command send: the
last-error holds "Command is empty" while the connection stays up. -/
def c4State : WT13106Connection :=
  (sendCommand [] (WriteOutcome.wrote 0) sConnected).2

/-- C4 counterexample: in a Connected state whose last-error is the nonempty
"Command is empty", a successful receiveResponse (returning one byte) leaves
the object — including the last-error — entirely unchanged, so the next
successful operation does not clear or overwrite the last-error as the claim
requires of every operation. -/
theorem C4_counterexample :
    c4State.m_isConnected = true
    ∧ c4State.m_lastError = ("Command is empty").data
    ∧ receiveResponse 1000 (ReadOutcome.ok [5]) c4State = ([5], c4State)
    ∧ (receiveResponse 1000 (ReadOutcome.ok [5]) c4State).2.m_lastError ≠ [] := by
  decide

/-- C4 (amended): every operation that fails leaves the connected flag
unchanged and records a nonempty human-readable last-error string; the
last-error is cleared by the next successful connect, disconnect or
sendCommand, but receiveResponse never clears it: every receiveResponse path
either leaves the last-error unchanged (successful or timed-out reads, and
the ignored Windows ERROR_IO_PENDING case) or overwrites it with a nonempty
error message while returning the empty vector — so a nonempty last-error
stays nonempty across any receiveResponse, and a receiveResponse that
returns data leaves the object unchanged. -/
theorem C4_error_state (s : WT13106Connection) (env : ConnectEnv) (cmd : List Nat)
    (w : WriteOutcome) (t : Nat) (r : ReadOutcome) :
    ((connect env s).1 = false →
        (connect env s).2.m_isConnected = s.m_isConnected ∧ (connect env s).2.m_lastError ≠ [])
    ∧ ((connect env s).1 = true → (connect env s).2.m_lastError = [])
    ∧ ((disconnect s).1 = false →
        (disconnect s).2.m_isConnected = s.m_isConnected ∧ (disconnect s).2.m_lastError ≠ [])
    ∧ ((disconnect s).1 = true → (disconnect s).2.m_lastError = [])
    ∧ ((sendCommand cmd w s).1 = false →
        (sendCommand cmd w s).2.m_isConnected = s.m_isConnected
          ∧ (sendCommand cmd w s).2.m_lastError ≠ [])
    ∧ ((sendCommand cmd w s).1 = true → (sendCommand cmd w s).2.m_lastError = [])
    ∧ (receiveResponse t r s).2.m_isConnected = s.m_isConnected
    ∧ ((receiveResponse t r s).1 ≠ [] → (receiveResponse t r s).2 = s)
    ∧ ((receiveResponse t r s).2.m_lastError = s.m_lastError
        ∨ ((receiveResponse t r s).2.m_lastError ≠ [] ∧ (receiveResponse t r s).1 = []))
    ∧ (s.m_lastError ≠ [] → (receiveResponse t r s).2.m_lastError ≠ []) := by
  refine ⟨?_, connect_success_lastError env s, disconnect_fail_state s,
    disconnect_success_lastError s, ?_, sendCommand_success_lastError cmd w s,
    receiveResponse_isConnected t r s, receiveResponse_data_state t r s,
    receiveResponse_lastError_cases t r s, receiveResponse_never_clears t r s⟩
  · intro h
    refine ⟨?_, connect_fail_lastError env s h⟩
    have hf := connect_isConnected env s
    rw [h] at hf
    simpa using hf
  · intro h
    exact ⟨sendCommand_isConnected cmd w s, sendCommand_fail_lastError cmd w s h⟩

/-- Witness for C4 at a concrete input: disconnect on a fresh (disconnected)
object fails, keeps the flag down and records a nonempty error. -/
theorem C4_witness :
    (disconnect (mkConnection ("BT:COM5").data)).1 = false
    ∧ (disconnect (mkConnection ("BT:COM5").data)).2.m_isConnected
        = (mkConnection ("BT:COM5").data).m_isConnected
    ∧ (disconnect (mkConnection ("BT:COM5").data)).2.m_lastError ≠ [] :=
  ⟨by decide,
    ((C4_error_state (mkConnection ("BT:COM5").data) envOK [1] (WriteOutcome.wrote 1) 0
        ReadOutcome.pending).2.2.1 (by decide)).1,
    ((C4_error_state (mkConnection ("BT:COM5").data) envOK [1] (WriteOutcome.wrote 1) 0
        ReadOutcome.pending).2.2.1 (by decide)).2⟩

/-- C5: disconnect() in the Connected state always succeeds — it closes the
serial transport, enters Disconnected and clears the last-error — and a second
disconnect() in a row is a non-fatal no-op that reports "Not connected"
(in the total model nothing can throw or crash). -/
theorem C5_disconnect_idempotent (s : WT13106Connection) (h : s.m_isConnected = true) :
    (disconnect s).1 = true
    ∧ (disconnect s).2.m_isConnected = false
    ∧ (disconnect s).2.m_lastError = []
    ∧ (s.m_connectionType = ConnectionType.BLUETOOTH → (disconnect s).2.m_serialOpen = false)
    ∧ disconnect (disconnect s).2
        = (false, { (disconnect s).2 with m_lastError := ("Not connected").data }) := by
  unfold disconnect
  rw [h]
  dsimp only
  refine ⟨rfl, rfl, rfl, ?_, rfl⟩
  intro ht
  unfold cleanupConnection
  rw [ht]
  dsimp only
  by_cases hso : s.m_serialOpen
  · rw [if_pos hso]
    rfl
  · rw [if_neg hso]
    simpa using hso

/-- Witness for C5 at a concrete connected state. -/
theorem C5_witness :
    sConnected.m_isConnected = true
    ∧ (disconnect sConnected).1 = true
    ∧ (disconnect sConnected).2.m_lastError = []
    ∧ (disconnect (disconnect sConnected).2).1 = false :=
  ⟨by decide, (C5_disconnect_idempotent sConnected (by decide)).1,
    (C5_disconnect_idempotent sConnected (by decide)).2.2.1, by
      rw [(C5_disconnect_idempotent sConnected (by decide)).2.2.2.2]⟩

/-- C6: connect() on an already-Connected instance fails with "Already
connected" and leaves every other field — the state flag, the descriptor
fields and the transport handle — unchanged (the result is the same record
with only the last-error replaced). -/
theorem C6_connect_already_connected (s : WT13106Connection) (env : ConnectEnv)
    (h : s.m_isConnected = true) :
    connect env s = (false, { s with m_lastError := ("Already connected").data }) := by
  unfold connect
  rw [h]
  rfl

/-- Witness for C6 at a concrete connected state. -/
theorem C6_witness :
    sConnected.m_isConnected = true
    ∧ connect envOK sConnected
        = (false, { sConnected with m_lastError := ("Already connected").data }) :=
  ⟨by decide, C6_connect_already_connected sConnected envOK (by decide)⟩

/-- C7: sendCommandAndReceive is literally the composition "send, and on send
failure return the empty vector without receiving, else receive"; with an
empty command on a connected object it fails immediately with "Command is
empty" — the result does not depend on the write outcome `w` or the read
outcome `r`, so neither the transport write nor the receive is reached. -/
theorem C7_send_and_receive_composition (s : WT13106Connection) (cmd : List Nat) (t : Nat)
    (w : WriteOutcome) (r : ReadOutcome) :
    sendCommandAndReceive cmd t w r s =
      (match sendCommand cmd w s with
       | (false, s1) => ([], s1)
       | (true, s1) => receiveResponse t r s1)
    ∧ (s.m_isConnected = true → cmd = [] →
        sendCommandAndReceive cmd t w r s
          = ([], { s with m_lastError := ("Command is empty").data })) := by
  refine ⟨rfl, ?_⟩
  intro h hc
  subst hc
  unfold sendCommandAndReceive sendCommand
  rw [h]
  rfl

/-- Witness for C7: the empty command on a concrete connected state, with a
failing write outcome and a failing read outcome that are both ignored. -/
theorem C7_witness :
    sConnected.m_isConnected = true
    ∧ sendCommandAndReceive [] 1000 WriteOutcome.fail ReadOutcome.ioError sConnected
        = ([], { sConnected with m_lastError := ("Command is empty").data }) :=
  ⟨by decide,
    (C7_send_and_receive_composition sConnected [] 1000 WriteOutcome.fail
      ReadOutcome.ioError).2 (by decide) rfl⟩

/-- C8 (amended): the USB transport's open is unimplemented and always fails —
whatever devices are present and claimable — so connect() on any USB
connection string always fails. -/
theorem C8_usb_open_always_fails (env : ConnectEnv) (s : WT13106Connection) (rest : List Char) :
    (initializeUSB env.usb s).1 = false
    ∧ (connect env (mkConnection ('U' :: 'S' :: 'B' :: ':' :: rest))).1 = false := by
  refine ⟨initializeUSB_fst env.usb s, ?_⟩
  unfold connect
  rw [show (mkConnection ('U' :: 'S' :: 'B' :: ':' :: rest)).m_isConnected = false from rfl]
  dsimp only
  rcases hp : parseConnectionString (mkConnection ('U' :: 'S' :: 'B' :: ':' :: rest)) with ⟨b, s1⟩
  cases b
  · rfl
  · have ht : s1.m_connectionType = ConnectionType.USB := by
      rw [parse_usb_eq rest] at hp
      dsimp only at hp
      rcases hc : findColon rest with _ | i
      · rw [hc] at hp
        exact Bool.noConfusion (congrArg Prod.fst hp)
      · rw [hc] at hp
        dsimp only at hp
        rcases hv : stoulHex (rest.take i) with _ | v
        · rw [hv] at hp
          exact Bool.noConfusion (congrArg Prod.fst hp)
        · rw [hv] at hp
          dsimp only at hp
          rcases hw : stoulHex (rest.drop (i + 1)) with _ | p
          · rw [hw] at hp
            exact Bool.noConfusion (congrArg Prod.fst hp)
          · rw [hw] at hp
            dsimp only at hp
            injection hp with hfst hsnd
            rw [← hsnd]
    dsimp only
    simp only [ht]
    rcases hu : initializeUSB env.usb s1 with ⟨b2, s2⟩
    have hb2 : b2 = false := by
      have := initializeUSB_fst env.usb s1
      rw [hu] at this
      exact this
    subst hb2
    rfl

/-- C8 counterexample: with a matching, claimable USB device present
(VID 0x1234, PID 0x5678 in the enumeration environment), connect() on
"USB:1234:5678" still fails — the claim says it succeeds. -/
theorem C8_counterexample :
    ((0x1234, 0x5678) ∈ usbEnvPresent.devices ∧ usbEnvPresent.claimable = true
      ∧ usbEnvPresent.enumOk = true)
    ∧ (connect { bt := btEnvOK, usb := usbEnvPresent }
        (mkConnection ("USB:1234:5678").data)).1 = false := by
  decide

/-- C2: send/receive succeed only in the Connected state, and the Connected
flag holds after a session exactly when some connect() succeeded with no
disconnect() since (the claim's "most recent connect() succeeded and no
disconnect() has occurred since"); in every other state sendCommand fails
with the "Not connected to device" error and receiveResponse returns the
empty vector with the same error — over every sequence of operations. -/
theorem C2_state_invariant (cs : List Char) (ops : List Op) :
    ((runOps (mkConnection cs) ops).m_isConnected = true ↔ specConnected (mkConnection cs) ops)
    ∧ (∀ cmd w, (sendCommand cmd w (runOps (mkConnection cs) ops)).1 = true →
        specConnected (mkConnection cs) ops)
    ∧ ((runOps (mkConnection cs) ops).m_isConnected = false →
        ∀ cmd w t r,
          sendCommand cmd w (runOps (mkConnection cs) ops)
            = (false, { runOps (mkConnection cs) ops with
                m_lastError := ("Not connected to device").data })
          ∧ receiveResponse t r (runOps (mkConnection cs) ops)
            = ([], { runOps (mkConnection cs) ops with
                m_lastError := ("Not connected to device").data })) := by
  have hmk : (mkConnection cs).m_isConnected = false := rfl
  have hiff : (runOps (mkConnection cs) ops).m_isConnected = true
      ↔ specConnected (mkConnection cs) ops := by
    rw [runOps_isConnected]
    simp [hmk]
  refine ⟨hiff, ?_, ?_⟩
  · intro cmd w hsend
    apply hiff.mp
    cases hx : (runOps (mkConnection cs) ops).m_isConnected
    · unfold sendCommand at hsend
      rw [hx] at hsend
      exact absurd hsend (by simp)
    · rfl
  · intro hf cmd w t r
    constructor
    · unfold sendCommand
      dsimp only
      rw [hf]
      rfl
    · unfold receiveResponse
      dsimp only
      rw [hf]
      rfl

/-- Witness for C2: the empty session leaves the object disconnected, and
there sendCommand fails with the "Not connected to device" error. -/
theorem C2_witness :
    (runOps (mkConnection ("BT:COM5").data) []).m_isConnected = false
    ∧ sendCommand [1] WriteOutcome.fail (runOps (mkConnection ("BT:COM5").data) [])
        = (false, { runOps (mkConnection ("BT:COM5").data) [] with
            m_lastError := ("Not connected to device").data }) :=
  ⟨by decide,
    ((C2_state_invariant ("BT:COM5").data []).2.2 (by decide) [1] WriteOutcome.fail 0
      ReadOutcome.ioError).1⟩

/-- C10: receiveResponse while Disconnected returns the empty byte vector with
only the last-error reporting the failure — the same return value as a
successful timeout-with-no-data read in the Connected state — and (being a
total function of the model) it always returns a byte vector for every state,
timeout and read outcome, never throwing. -/
theorem C10_receive_disconnected_empty (s s2 : WT13106Connection) (t t2 : Nat)
    (r : ReadOutcome) (h : s.m_isConnected = false) (h2 : s2.m_isConnected = true)
    (ht : s2.m_connectionType = ConnectionType.BLUETOOTH) :
    receiveResponse t r s = ([], { s with m_lastError := ("Not connected to device").data })
    ∧ receiveResponse t2 (ReadOutcome.ok []) s2 = ([], s2)
    ∧ (receiveResponse t r s).1 = (receiveResponse t2 (ReadOutcome.ok []) s2).1 := by
  have ha : receiveResponse t r s
      = ([], { s with m_lastError := ("Not connected to device").data }) := by
    unfold receiveResponse
    rw [h]
    rfl
  have hb : receiveResponse t2 (ReadOutcome.ok []) s2 = ([], s2) := by
    unfold receiveResponse
    rw [h2, ht]
    rfl
  exact ⟨ha, hb, by rw [ha, hb]⟩

/-- Witness for C10 at concrete states: a fresh object (disconnected) and a
connected Bluetooth object. -/
theorem C10_witness :
    (mkConnection ("BT:COM5").data).m_isConnected = false
    ∧ receiveResponse 1000 ReadOutcome.ioError (mkConnection ("BT:COM5").data)
        = ([], { mkConnection ("BT:COM5").data with
            m_lastError := ("Not connected to device").data })
    ∧ receiveResponse 500 (ReadOutcome.ok []) sConnected = ([], sConnected) :=
  ⟨by decide,
    (C10_receive_disconnected_empty (mkConnection ("BT:COM5").data) sConnected 1000 500
      ReadOutcome.ioError (by decide) (by decide) (by decide)).1,
    (C10_receive_disconnected_empty (mkConnection ("BT:COM5").data) sConnected 1000 500
      ReadOutcome.ioError (by decide) (by decide) (by decide)).2.1⟩

/-- Witness for the amended C3 at the concrete input "USB:1234:5678". -/
theorem C3_witness :
    findColon ("1234:5678").data = some 4
    ∧ stoulHex (("1234:5678").data.take 4) = some 0x1234
    ∧ stoulHex (("1234:5678").data.drop 5) = some 0x5678
    ∧ parseOutcome ('U' :: 'S' :: 'B' :: ':' :: ("1234:5678").data)
        = ParseOutcome.usb (0x1234 % 65536) (0x5678 % 65536) :=
  ⟨by decide, by decide, by decide,
    (C3_usb_parse_characterization (("1234:5678").data)).2 4 0x1234 0x5678
      (by decide) (by decide) (by decide)⟩

end WT13106
